import Mathlib

/-!
# Verification of the `iterative-systems` epidemic-model core

Shallow embedding of the Transition Model of the `iterative-systems`
repository: a two-compartment Markov-chain epidemic widget.  The repository
holds two revisions of the component:

* the latest revision (`MAX_DAYS = 32`), whose `infectedAtDay` builds the
  matrix `[[1-p, r], [p, 1-r]]`, raises it to the `day`-th power, applies it
  on the left of the column vector `[initialRecovered, initialInfected]`,
  checks conservation of the total population within tolerance `0.1`, and
  returns the pair `[recovered, infected]` of its two local names (which are
  crossed with respect to the matrix rows, so the pair returned is in fact
  `(infected value, recovered value)` in chart order);
* the older revision `src/app.ts` (`MAX_DAYS = 10`), whose `infectedAtDay`
  builds the row-stochastic matrix `[[1-p, p], [r, 1-r]]` and multiplies the
  row vector `[initialInfected, initialRecovered]` on its left, with no
  conservation check.  It is embedded in namespace `AppTs`.

Numbers are embedded as exact rationals `ℚ`; `mathjs` dense 2x2 matrices and
length-2 vectors become the structures `Mat2` and `Vec2`; the `throw` of the
conservation check becomes `Except.error`.
-/

/-- A dense 2x2 matrix over `ℚ` (`mathjs` `matrix([[a, b], [c, d]])`):
`a b` is the first row, `c d` the second. -/
@[ext] structure Mat2 where
  a : ℚ
  b : ℚ
  c : ℚ
  d : ℚ
  deriving DecidableEq

/-- A length-2 vector over `ℚ` (`mathjs` `matrix([x, y])`). -/
@[ext] structure Vec2 where
  x : ℚ
  y : ℚ
  deriving DecidableEq

/-- Matrix product of two 2x2 matrices. -/
def Mat2.mul (m n : Mat2) : Mat2 :=
  ⟨m.a * n.a + m.b * n.c, m.a * n.b + m.b * n.d,
   m.c * n.a + m.d * n.c, m.c * n.b + m.d * n.d⟩

/-- The 2x2 identity matrix. -/
def Mat2.one : Mat2 := ⟨1, 0, 0, 1⟩

/-- `mathjs` `pow(m, n)` on a 2x2 matrix: the `n`-th matrix power. -/
def Mat2.pow (m : Mat2) : ℕ → Mat2
  | 0 => Mat2.one
  | n + 1 => m.mul (m.pow n)

/-- `mathjs` `multiply(m, v)`: matrix times column vector. -/
def Mat2.mulVec (m : Mat2) (v : Vec2) : Vec2 :=
  ⟨m.a * v.x + m.b * v.y, m.c * v.x + m.d * v.y⟩

/-- `mathjs` `multiply(v, m)`: row vector times matrix. -/
def Vec2.vecMul (v : Vec2) (m : Mat2) : Vec2 :=
  ⟨v.x * m.a + v.y * m.c, v.x * m.b + v.y * m.d⟩

/-- The transition matrix of the latest revision:
`matrix([[1 - infectionProb, recoveryProb], [infectionProb, 1 - recoveryProb]])`. -/
def transitionMatrix (infectionProb recoveryProb : ℚ) : Mat2 :=
  ⟨1 - infectionProb, recoveryProb,
   infectionProb, 1 - recoveryProb⟩

/-- `infectedAtDay` of the latest revision.  The instance fields
`this.initialInfected` and `this.initialRecovered` are passed as
parameters.  The `throw new Error(...)` of the conservation check becomes
`Except.error` carrying the thrown message. -/
def infectedAtDay (day : ℕ) (infectionProb recoveryProb : ℚ)
    (initialInfected initialRecovered : ℚ) : Except String (ℚ × ℚ) :=
  let transitionMatrixPowered := (transitionMatrix infectionProb recoveryProb).pow day
  let initialStateMatrix : Vec2 := ⟨initialRecovered, initialInfected⟩
  let finalStateMatrix := transitionMatrixPowered.mulVec initialStateMatrix
  let infected := finalStateMatrix.x
  let recovered := finalStateMatrix.y
  let expectedTotal := initialInfected + initialRecovered
  let total := infected + recovered
  let diff := total - expectedTotal
  if |diff| > 1 / 10 then
    Except.error ("Total is not 100: " ++ toString total)
  else
    Except.ok (recovered, infected)

/-- The final state vector `M^day * [initialRecovered, initialInfected]`
computed inside `infectedAtDay` of the latest revision. -/
def dayFinal (day : ℕ) (infectionProb recoveryProb : ℚ)
    (initialInfected initialRecovered : ℚ) : Vec2 :=
  ((transitionMatrix infectionProb recoveryProb).pow day).mulVec
    ⟨initialRecovered, initialInfected⟩

/-- First component of the pair returned by `infectedAtDay` (the value the
chart plots as the "Infected" series). -/
def finalInfected (day : ℕ) (infectionProb recoveryProb : ℚ)
    (initialInfected initialRecovered : ℚ) : ℚ :=
  (dayFinal day infectionProb recoveryProb initialInfected initialRecovered).y

/-- Second component of the pair returned by `infectedAtDay` (the value the
chart plots as the "Recovered" series). -/
def finalRecovered (day : ℕ) (infectionProb recoveryProb : ℚ)
    (initialInfected initialRecovered : ℚ) : ℚ :=
  (dayFinal day infectionProb recoveryProb initialInfected initialRecovered).x

/-- The `total` checked against `expectedTotal` inside `infectedAtDay`. -/
def computedTotal (day : ℕ) (infectionProb recoveryProb : ℚ)
    (initialInfected initialRecovered : ℚ) : ℚ :=
  (dayFinal day infectionProb recoveryProb initialInfected initialRecovered).x +
    (dayFinal day infectionProb recoveryProb initialInfected initialRecovered).y

/-- The `updated` lifecycle hook of the latest revision: builds
`infectionsGroups` for days `0 .. days`, splits it into the infected and
recovered series, and rebuilds the day labels; returns the three lists handed
to the chart (`labels`, `datasets[0].data`, `datasets[1].data`).  A throw in
any `infectedAtDay` call aborts the whole recomputation. -/
def updated (days : ℕ) (infectionProb recoveryProb : ℚ)
    (initialInfected initialRecovered : ℚ) :
    Except String (List String × List ℚ × List ℚ) := do
  let infectionsGroups ← (List.range (1 + days)).mapM
    (fun i => infectedAtDay i infectionProb recoveryProb initialInfected initialRecovered)
  let infectedData := infectionsGroups.map (fun v => v.1)
  let recoveredData := infectionsGroups.map (fun v => v.2)
  let labels := (List.range (1 + days)).map (fun i => toString i)
  return (labels, infectedData, recoveredData)

namespace AppTs

/-- The `chain` matrix of the older revision `src/app.ts`:
`matrix([[1 - p, p], [r, 1 - r]])`. -/
def chain (infectionProbability recoveryProbability : ℚ) : Mat2 :=
  ⟨1 - infectionProbability, infectionProbability,
   recoveryProbability, 1 - recoveryProbability⟩

/-- `infectedAtDay` of the older revision `src/app.ts`: the row vector
`[[initialInfected, initialRecovered]]` is multiplied on the left of
`chain^day`; no conservation check is performed.  (The `isDenseMatrix`
guard of the source cannot fail in this embedding: `Mat2` is dense by
construction, as is `pow` of a dense `mathjs` matrix.) -/
def infectedAtDay (day : ℕ) (infectionProbability recoveryProbability : ℚ)
    (initialInfected initialRecovered : ℚ) : ℚ × ℚ :=
  let poweredChain := (chain infectionProbability recoveryProbability).pow day
  let stateRow : Vec2 := ⟨initialInfected, initialRecovered⟩
  let result := stateRow.vecMul poweredChain
  let nInfected := result.x
  let nRecovered := result.y
  (nInfected, nRecovered)

end AppTs

/-! ## Basic algebra of the embedding -/

theorem Mat2.pow_zero (m : Mat2) : m.pow 0 = Mat2.one := rfl

theorem Mat2.pow_succ (m : Mat2) (n : ℕ) : m.pow (n + 1) = m.mul (m.pow n) := rfl

theorem Mat2.one_mulVec (v : Vec2) : Mat2.one.mulVec v = v := by
  ext <;> simp [Mat2.mulVec, Mat2.one]

theorem Mat2.mul_mulVec (m n : Mat2) (v : Vec2) :
    (m.mul n).mulVec v = m.mulVec (n.mulVec v) := by
  ext <;> simp [Mat2.mulVec, Mat2.mul] <;> ring

/-- A matrix whose two columns each sum to `1` preserves the sum of the
components of any vector it is applied to. -/
theorem Mat2.mulVec_sum_of_colsum (m : Mat2) (v : Vec2)
    (ha : m.a + m.c = 1) (hb : m.b + m.d = 1) :
    (m.mulVec v).x + (m.mulVec v).y = v.x + v.y := by
  simp only [Mat2.mulVec]
  linear_combination v.x * ha + v.y * hb

/-- Column sums are preserved by every power of a column-sum-1 matrix, in the
sense that applying the power preserves vector component sums. -/
theorem Mat2.pow_mulVec_sum (m : Mat2) (v : Vec2)
    (ha : m.a + m.c = 1) (hb : m.b + m.d = 1) (n : ℕ) :
    ((m.pow n).mulVec v).x + ((m.pow n).mulVec v).y = v.x + v.y := by
  induction n with
  | zero => simp [Mat2.pow_zero, Mat2.one_mulVec]
  | succ k ih =>
    rw [Mat2.pow_succ, Mat2.mul_mulVec]
    rw [Mat2.mulVec_sum_of_colsum m _ ha hb]
    exact ih

/-- Each column of the latest revision's transition matrix sums to `1`. -/
theorem transitionMatrix_colsum (p r : ℚ) :
    (transitionMatrix p r).a + (transitionMatrix p r).c = 1 ∧
      (transitionMatrix p r).b + (transitionMatrix p r).d = 1 := by
  constructor <;> · simp [transitionMatrix]

/-- The total population computed inside `infectedAtDay` is exactly the
initial total, for every input: exact rational arithmetic conserves the sum. -/
theorem computedTotal_eq (day : ℕ) (p r i0 r0 : ℚ) :
    computedTotal day p r i0 r0 = i0 + r0 := by
  unfold computedTotal dayFinal
  rw [Mat2.pow_mulVec_sum _ _ (transitionMatrix_colsum p r).1 (transitionMatrix_colsum p r).2]
  ring

/-- `infectedAtDay` never throws: the conservation branch is dead code and the
returned pair is `(finalInfected, finalRecovered)`. -/
theorem infectedAtDay_eq_ok (day : ℕ) (p r i0 r0 : ℚ) :
    infectedAtDay day p r i0 r0 =
      Except.ok (finalInfected day p r i0 r0, finalRecovered day p r i0 r0) := by
  unfold infectedAtDay
  have htot : (dayFinal day p r i0 r0).x + (dayFinal day p r i0 r0).y = i0 + r0 := by
    have := computedTotal_eq day p r i0 r0
    unfold computedTotal at this
    exact this
  simp only [finalInfected, finalRecovered, dayFinal] at *
  have hcond :
      ¬ |(((transitionMatrix p r).pow day).mulVec ⟨r0, i0⟩).x +
          (((transitionMatrix p r).pow day).mulVec ⟨r0, i0⟩).y - (i0 + r0)| > 1 / 10 := by
    rw [htot]
    simp
  rw [if_neg hcond]

theorem Mat2.one_mul (m : Mat2) : Mat2.one.mul m = m := by
  ext <;> simp [Mat2.mul, Mat2.one]

theorem Mat2.mul_one (m : Mat2) : m.mul Mat2.one = m := by
  ext <;> simp [Mat2.mul, Mat2.one]

/-- With `p = 1` and `r = 1` the transition matrix is the swap matrix, and
the swap matrix squares to the identity. -/
theorem swap_mul_swap : (transitionMatrix 1 1).mul (transitionMatrix 1 1) = Mat2.one := by
  ext <;> norm_num [transitionMatrix, Mat2.mul, Mat2.one]

/-- Powers of the swap matrix alternate between the identity and the swap. -/
theorem swap_pow (k : ℕ) :
    (transitionMatrix 1 1).pow (2 * k) = Mat2.one ∧
      (transitionMatrix 1 1).pow (2 * k + 1) = transitionMatrix 1 1 := by
  induction k with
  | zero =>
    refine ⟨rfl, ?_⟩
    show (transitionMatrix 1 1).mul Mat2.one = _
    rw [Mat2.mul_one]
  | succ n ih =>
    have h2 : 2 * (n + 1) = (2 * n + 1) + 1 := by ring
    have h3 : 2 * (n + 1) + 1 = (2 * n + 1) + 1 + 1 := by ring
    constructor
    · rw [h2, Mat2.pow, ih.2, swap_mul_swap]
    · rw [h3, Mat2.pow, Mat2.pow, ih.2, swap_mul_swap, Mat2.mul_one]

/-- With `p = 1/2` and `r = 1/2` the transition matrix is idempotent. -/
theorem half_mul_half :
    (transitionMatrix (1/2) (1/2)).mul (transitionMatrix (1/2) (1/2)) =
      transitionMatrix (1/2) (1/2) := by
  ext <;> norm_num [transitionMatrix, Mat2.mul]

/-- Every positive power of the `p = r = 1/2` transition matrix equals the
matrix itself. -/
theorem half_pow (k : ℕ) :
    (transitionMatrix (1/2) (1/2)).pow (k + 1) = transitionMatrix (1/2) (1/2) := by
  induction k with
  | zero =>
    show (transitionMatrix (1/2) (1/2)).mul Mat2.one = _
    rw [Mat2.mul_one]
  | succ n ih =>
    rw [Mat2.pow, ih, half_mul_half]

/-- `List.mapM` over `Except` succeeds pointwise when every element does. -/
theorem List.mapM_ok {ε α β : Type} (f : α → Except ε β) (g : α → β) (l : List α)
    (h : ∀ x ∈ l, f x = Except.ok (g x)) : l.mapM f = Except.ok (l.map g) := by
  induction l with
  | nil => rfl
  | cons a t ih =>
    rw [List.mapM_cons, h a (by simp), ih (fun x hx => h x (by simp [hx]))]
    rfl

/-- Closed form of the `updated` hook: it always succeeds and hands the chart
the labels `"0" .. "days"` and the two day-indexed series. -/
theorem updated_eq (days : ℕ) (p r i0 r0 : ℚ) :
    updated days p r i0 r0 =
      Except.ok ((List.range (1 + days)).map toString,
        (List.range (1 + days)).map (fun j => finalInfected j p r i0 r0),
        (List.range (1 + days)).map (fun j => finalRecovered j p r i0 r0)) := by
  unfold updated
  rw [List.mapM_ok _ (fun i => (finalInfected i p r i0 r0, finalRecovered i p r i0 r0)) _
    (fun x _ => infectedAtDay_eq_ok x p r i0 r0)]
  simp [Except.bind, List.map_map, Function.comp]

/-! ## Claims -/

/-- C10: In exact rational arithmetic, for every `p`, `r`, every
`initialInfected` and `initialRecovered` and every day `d ≥ 0`, the two values
returned by `infectedAtDay` sum exactly to `initialInfected +
initialRecovered`; each column of the constructed matrix sums to `1` and
matrix powers preserve column sums, so the conservation throw branch is
unreachable and the `0.1` tolerance is never needed. -/
theorem claim_C10_exact_conservation (day : ℕ) (p r i0 r0 : ℚ) :
    finalInfected day p r i0 r0 + finalRecovered day p r i0 r0 = i0 + r0 ∧
      infectedAtDay day p r i0 r0 =
        Except.ok (finalInfected day p r i0 r0, finalRecovered day p r i0 r0) ∧
      (transitionMatrix p r).a + (transitionMatrix p r).c = 1 ∧
      (transitionMatrix p r).b + (transitionMatrix p r).d = 1 := by
  refine ⟨?_, infectedAtDay_eq_ok day p r i0 r0,
    (transitionMatrix_colsum p r).1, (transitionMatrix_colsum p r).2⟩
  have := computedTotal_eq day p r i0 r0
  unfold computedTotal at this
  unfold finalInfected finalRecovered
  linarith

/-- C1: For every `p`, `r` in `[0,1]`, non-negative initial populations and
every day `d ≥ 0`, `infectedAtDay` succeeds and the sum of the two returned
compartment values differs from `initialInfected + initialRecovered` by at
most `0.1`. -/
theorem claim_C1_conservation_every_day (day : ℕ) (p r i0 r0 : ℚ)
    (hp0 : 0 ≤ p) (hp1 : p ≤ 1) (hr0 : 0 ≤ r) (hr1 : r ≤ 1)
    (hi : 0 ≤ i0) (hr : 0 ≤ r0) :
    infectedAtDay day p r i0 r0 =
        Except.ok (finalInfected day p r i0 r0, finalRecovered day p r i0 r0) ∧
      |finalInfected day p r i0 r0 + finalRecovered day p r i0 r0 - (i0 + r0)| ≤ 1 / 10 := by
  refine ⟨infectedAtDay_eq_ok day p r i0 r0, ?_⟩
  have := computedTotal_eq day p r i0 r0
  unfold computedTotal at this
  unfold finalInfected finalRecovered
  rw [show (dayFinal day p r i0 r0).y + (dayFinal day p r i0 r0).x - (i0 + r0) = 0 by linarith]
  norm_num

/-- Witness for C1 at `p = 0.03`, `r = 0.05`, `i0 = 1`, `r0 = 100`, day 5. -/
theorem claim_C1_conservation_every_day_witness :
    infectedAtDay 5 (3/100) (5/100) 1 100 =
        Except.ok (finalInfected 5 (3/100) (5/100) 1 100, finalRecovered 5 (3/100) (5/100) 1 100) ∧
      |finalInfected 5 (3/100) (5/100) 1 100 + finalRecovered 5 (3/100) (5/100) 1 100 - (1 + 100)| ≤ 1 / 10 :=
  claim_C1_conservation_every_day 5 (3/100) (5/100) 1 100 (by norm_num) (by norm_num)
    (by norm_num) (by norm_num) (by norm_num) (by norm_num)

/-- C2: For every `p`, `r` in `[0,1]` and non-negative initial populations,
day `0` returns the initial state exactly, in both revisions of the
Transition Model: the infected slot equals `initialInfected` and the
recovered slot equals `initialRecovered` (`M^0` is the identity). -/
theorem claim_C2_day_zero_identity (p r i0 r0 : ℚ)
    (hp0 : 0 ≤ p) (hp1 : p ≤ 1) (hr0 : 0 ≤ r) (hr1 : r ≤ 1)
    (hi : 0 ≤ i0) (hr : 0 ≤ r0) :
    infectedAtDay 0 p r i0 r0 = Except.ok (i0, r0) ∧
      AppTs.infectedAtDay 0 p r i0 r0 = (i0, r0) := by
  constructor
  · rw [infectedAtDay_eq_ok]
    simp [finalInfected, finalRecovered, dayFinal, Mat2.pow_zero, Mat2.one_mulVec]
  · simp [AppTs.infectedAtDay, Mat2.pow_zero, Vec2.vecMul, Mat2.one]

/-- Witness for C2 at `p = 0.03`, `r = 0.05`, `i0 = 1`, `r0 = 100`. -/
theorem claim_C2_day_zero_identity_witness :
    infectedAtDay 0 (3/100) (5/100) 1 100 = Except.ok (1, 100) ∧
      AppTs.infectedAtDay 0 (3/100) (5/100) 1 100 = (1, 100) :=
  claim_C2_day_zero_identity (3/100) (5/100) 1 100 (by norm_num) (by norm_num)
    (by norm_num) (by norm_num) (by norm_num) (by norm_num)

/-- C5: The Transition Model of the latest revision has a single error site:
`infectedAtDay` fails exactly when the computed total deviates from
`initialInfected + initialRecovered` by more than the fixed tolerance `0.1`,
and the only error it can produce is the conservation-violation throw. -/
theorem claim_C5_single_error_kind (day : ℕ) (p r i0 r0 : ℚ) :
    infectedAtDay day p r i0 r0 =
      (if |computedTotal day p r i0 r0 - (i0 + r0)| > 1 / 10 then
        Except.error ("Total is not 100: " ++ toString (computedTotal day p r i0 r0))
      else
        Except.ok (finalInfected day p r i0 r0, finalRecovered day p r i0 r0)) ∧
      ((infectedAtDay day p r i0 r0).isOk = false ↔
        |computedTotal day p r i0 r0 - (i0 + r0)| > 1 / 10) := by
  constructor
  · unfold infectedAtDay computedTotal finalInfected finalRecovered dayFinal
    rfl
  · rw [infectedAtDay_eq_ok]
    have := computedTotal_eq day p r i0 r0
    rw [this]
    simp only [sub_self, abs_zero, Except.isOk, Except.toBool]
    norm_num

/-- C3 counterexample: at `p = 1`, `r = 0` the matrix built by the latest
revision's `infectedAtDay` does not have row "healthy" `[1-p, p]` and its
first row sums to `0`, not `1`: the construction is not row-stochastic. -/
theorem claim_C3_counterexample :
    ¬ ((transitionMatrix 1 0).b = 1 ∧
        (transitionMatrix 1 0).a + (transitionMatrix 1 0).b = 1) := by
  norm_num [transitionMatrix]

/-- C3 amended: the latest revision builds the matrix with rows `[1-p, r]`
and `[p, 1-r]`, each of whose *columns* sums to exactly `1`
(column-stochastic); the older revision `src/app.ts` builds rows `[1-p, p]`
and `[r, 1-r]`, each of whose rows sums to exactly `1` (row-stochastic). -/
theorem claim_C3_amended (p r : ℚ) :
    (transitionMatrix p r).a = 1 - p ∧ (transitionMatrix p r).b = r ∧
      (transitionMatrix p r).c = p ∧ (transitionMatrix p r).d = 1 - r ∧
      (transitionMatrix p r).a + (transitionMatrix p r).c = 1 ∧
      (transitionMatrix p r).b + (transitionMatrix p r).d = 1 ∧
      AppTs.chain p r = ⟨1 - p, p, r, 1 - r⟩ ∧
      (AppTs.chain p r).a + (AppTs.chain p r).b = 1 ∧
      (AppTs.chain p r).c + (AppTs.chain p r).d = 1 :=
  ⟨rfl, rfl, rfl, rfl, by simp [transitionMatrix], by simp [transitionMatrix],
    rfl, by simp [AppTs.chain], by simp [AppTs.chain]⟩

/-- C4 counterexample: at `p = 0.03`, `r = 0.05`, `initialInfected = 1`,
`initialRecovered = 100`, `d = 1`, the latest revision's `infectedAtDay`
returns infected `3.95`, which is not approximately `5.97` (it misses by
`2.02`, far beyond the `0.1` conservation tolerance). -/
theorem claim_C4_counterexample :
    infectedAtDay 1 (3/100) (5/100) 1 100 = Except.ok (79/20, 1941/20) ∧
      ¬ |(79 : ℚ)/20 - 597/100| ≤ 1/10 := by
  constructor
  · rw [infectedAtDay_eq_ok]
    norm_num [finalInfected, finalRecovered, dayFinal, transitionMatrix,
      Mat2.pow, Mat2.mul, Mat2.mulVec, Mat2.one, Prod.ext_iff]
  · rw [abs_le]
    push_neg
    norm_num

/-- C4 amended: at `p = 0.03`, `r = 0.05`, `initialInfected = 1`,
`initialRecovered = 100`, `d = 1`, the latest revision returns infected
`3.95 = 1*(1-0.05) + 100*0.03` and recovered `97.05 = 1*0.05 + 100*(1-0.03)`,
whose sum `101` matches the initial total; the values `5.97` and `95.03`
claimed are produced by the older revision `src/app.ts`. -/
theorem claim_C4_amended :
    infectedAtDay 1 (3/100) (5/100) 1 100 = Except.ok (79/20, 1941/20) ∧
      (79 : ℚ)/20 = 1 * (1 - 5/100) + 100 * (3/100) ∧
      (1941 : ℚ)/20 = 1 * (5/100) + 100 * (1 - 3/100) ∧
      (79 : ℚ)/20 + 1941/20 = 101 ∧
      AppTs.infectedAtDay 1 (3/100) (5/100) 1 100 = (597/100, 9503/100) := by
  refine ⟨?_, by norm_num, by norm_num, by norm_num, ?_⟩
  · rw [infectedAtDay_eq_ok]
    norm_num [finalInfected, finalRecovered, dayFinal, transitionMatrix,
      Mat2.pow, Mat2.mul, Mat2.mulVec, Mat2.one, Prod.ext_iff]
  · norm_num [AppTs.infectedAtDay, AppTs.chain, Vec2.vecMul,
      Mat2.pow, Mat2.mul, Mat2.one, Prod.ext_iff]

/-- C6: with `p = 1` and `r = 1`, for every non-negative initial state and
every day, an even day returns the initial state unchanged and an odd day
returns it with the two compartments swapped. -/
theorem claim_C6_full_swap_oscillation (d : ℕ) (i0 r0 : ℚ)
    (hi : 0 ≤ i0) (hr : 0 ≤ r0) :
    infectedAtDay d 1 1 i0 r0 =
      Except.ok (if Even d then (i0, r0) else (r0, i0)) := by
  rw [infectedAtDay_eq_ok]
  rcases Nat.even_or_odd d with he | ho
  · rw [if_pos he]
    obtain ⟨k, hk⟩ := he
    subst hk
    unfold finalInfected finalRecovered dayFinal
    rw [show k + k = 2 * k by ring, (swap_pow k).1, Mat2.one_mulVec]
  · rw [if_neg (Nat.not_even_iff_odd.mpr ho)]
    obtain ⟨k, hk⟩ := ho
    subst hk
    unfold finalInfected finalRecovered dayFinal
    rw [(swap_pow k).2]
    simp [transitionMatrix, Mat2.mulVec]

/-- Witness for C6 at `i0 = 1`, `r0 = 100`, days 2 and 3. -/
theorem claim_C6_full_swap_oscillation_witness :
    infectedAtDay 2 1 1 1 100 = Except.ok (if Even 2 then ((1 : ℚ), (100 : ℚ)) else (100, 1)) ∧
      infectedAtDay 3 1 1 1 100 = Except.ok (if Even 3 then ((1 : ℚ), (100 : ℚ)) else (100, 1)) :=
  ⟨claim_C6_full_swap_oscillation 2 1 100 (by norm_num) (by norm_num),
    claim_C6_full_swap_oscillation 3 1 100 (by norm_num) (by norm_num)⟩

/-- C7: with `p = 1/2` and `r = 1/2`, every day `d ≥ 1` returns exactly the
midpoint split: each compartment equals half of the initial total, because
the transition matrix is idempotent past the first application. -/
theorem claim_C7_midpoint_split (d : ℕ) (i0 r0 : ℚ)
    (hd : 1 ≤ d) (hi : 0 ≤ i0) (hr : 0 ≤ r0) :
    infectedAtDay d (1/2) (1/2) i0 r0 =
      Except.ok ((i0 + r0) / 2, (i0 + r0) / 2) := by
  obtain ⟨k, rfl⟩ : ∃ k, d = k + 1 := ⟨d - 1, by omega⟩
  rw [infectedAtDay_eq_ok]
  unfold finalInfected finalRecovered dayFinal
  rw [half_pow]
  simp only [transitionMatrix, Mat2.mulVec, Except.ok.injEq, Prod.mk.injEq]
  constructor <;> ring

/-- Witness for C7 at `i0 = 1`, `r0 = 100`, day 1. -/
theorem claim_C7_midpoint_split_witness :
    infectedAtDay 1 (1/2) (1/2) 1 100 = Except.ok (((1 : ℚ) + 100) / 2, ((1 : ℚ) + 100) / 2) :=
  claim_C7_midpoint_split 1 1 100 (by norm_num) (by norm_num) (by norm_num)

/-- C8: on every recomputation the `updated` hook succeeds and hands the
chart the day labels `"0" .. "days"` in ascending day order together with the
day-indexed infected and recovered series, all three lists of the same
length `days + 1`. -/
theorem claim_C8_sequence_shape (days : ℕ) (p r i0 r0 : ℚ) :
    updated days p r i0 r0 =
      Except.ok ((List.range (1 + days)).map toString,
        (List.range (1 + days)).map (fun j => finalInfected j p r i0 r0),
        (List.range (1 + days)).map (fun j => finalRecovered j p r i0 r0)) ∧
      ((List.range (1 + days)).map (toString : ℕ → String)).length = days + 1 ∧
      ((List.range (1 + days)).map (fun j => finalInfected j p r i0 r0)).length = days + 1 ∧
      ((List.range (1 + days)).map (fun j => finalRecovered j p r i0 r0)).length = days + 1 := by
  refine ⟨updated_eq days p r i0 r0, ?_, ?_, ?_⟩ <;> simp [Nat.add_comm]

/-- C9: for fixed parameters and day counts `D ≤ E`, the three lists computed
for `E` days agree with those computed for `D` days on every day `0 .. D`:
the `D`-day lists are exactly the first `D + 1` entries of the `E`-day
lists, since each day's state is computed independently via `M^day`. -/
theorem claim_C9_monotonic_consistency (p r i0 r0 : ℚ) (D E : ℕ) (h : D ≤ E) :
    updated D p r i0 r0 =
      (updated E p r i0 r0).map
        (fun t => (t.1.take (1 + D), t.2.1.take (1 + D), t.2.2.take (1 + D))) := by
  rw [updated_eq, updated_eq]
  have hmin : (1 + D) ⊓ (1 + E) = 1 + D := min_eq_left (by omega)
  simp only [Except.map, Except.ok.injEq, Prod.mk.injEq]
  refine ⟨?_, ?_, ?_⟩ <;> rw [← List.map_take, List.take_range, hmin]

/-- Witness for C9 at `p = 0.03`, `r = 0.05`, `i0 = 1`, `r0 = 100`,
`D = 1`, `E = 2`. -/
theorem claim_C9_monotonic_consistency_witness :
    updated 1 (3/100) (5/100) 1 100 =
      (updated 2 (3/100) (5/100) 1 100).map
        (fun t => (t.1.take (1 + 1), t.2.1.take (1 + 1), t.2.2.take (1 + 1))) :=
  claim_C9_monotonic_consistency (3/100) (5/100) 1 100 1 2 (by norm_num)
